import Mathlib

/-!
Verification of the budget-dashboard application (`src/app.py`).

The application is a single-page dashboard.  Its data pipeline is:

1. `load_and_clean_data` reads the uploaded file with
   `pd.read_csv(uploaded_file, header=None, names=[Account, Date, Description,
   Expense, Income, Category])`, strips whitespace from the string columns,
   converts `Date` with `pd.to_datetime` (default `errors="raise"`),
   converts `Expense`/`Income` with `pd.to_numeric(errors="coerce").fillna(0)`,
   and sorts the frame by `Date` ascending.
2. A boolean mask conjoins a date-range test, `Category.isin(selected)` and
   `Account.isin(selected)`; `filtered_df = raw_df[mask]`.
3. KPI totals are sums of the `Expense` / `Income` columns of `filtered_df`,
   with `net_flow = total_income - total_expense`.
4. The transaction listing is `filtered_df.copy()` with the date formatted as
   `%d %b %Y` and amounts formatted as `$x,xxx.xx`, or `-` when not positive.

The embedding below models this pipeline over `List` and `Rat` (monetary
amounts are exact rationals; the claims under verification do not depend on
binary floating-point artefacts).  `pd.read_csv` semantics modelled here, for
a headerless file with six column names: lines are split on `,`; completely
empty lines are skipped; an empty field is a missing value (NaN); a line with
fewer than six fields has its missing trailing fields as NaN; in a line with
more than six fields the leftmost surplus fields are consumed as the frame's
index (pandas' names/index-inference rule), so the named columns receive the
last six fields.  Exotic `read_csv` features (quoting, alternative NA tokens
such as "NULL", scientific-notation numbers) are out of scope: no claim
involves them.  Missing values are modelled with `Option`; a missing date is
`none` (NaT), which `to_datetime` passes through, which sorts last
(`na_position="last"`), and which fails every date-range comparison.
-/

/-! ### Character-level string utilities

These model Python's `str.split(",")`-style field splitting, `str.strip`,
`float(...)` parsing and date-format parsing at the level of character lists,
so that every definition evaluates by kernel reduction on concrete input. -/

/-- Split a character list at every occurrence of the delimiter `c`. -/
def splitCharsOn (c : Char) : List Char → List Char → List (List Char)
  | [], acc => [acc.reverse]
  | x :: xs, acc =>
    if x = c then acc.reverse :: splitCharsOn c xs []
    else splitCharsOn c xs (x :: acc)

/-- Split a string at every occurrence of the delimiter `c`. -/
def splitStrOn (c : Char) (s : String) : List String :=
  (splitCharsOn c s.data []).map (fun l => String.mk l)

/-- Remove leading and trailing whitespace (Python `str.strip`). -/
def trimChars (l : List Char) : List Char :=
  ((l.dropWhile Char.isWhitespace).reverse.dropWhile Char.isWhitespace).reverse

/-- `str.strip` on a string. -/
def stripStr (s : String) : String := String.mk (trimChars s.data)

/-- Parse a non-empty all-digit character list as a natural number. -/
def parseNatDigits (cs : List Char) : Option Nat :=
  if cs ≠ [] ∧ cs.all Char.isDigit then
    some (cs.foldl (fun n c => 10 * n + (c.toNat - 48)) 0)
  else none

/-- Decimal-number parsing as performed by `pd.to_numeric` on a string field:
optional surrounding whitespace, optional sign, digits with an optional
fractional part (`"12"`, `"12.50"`, `".5"`, `"12."`). Anything else fails
(`errors="coerce"` then maps the failure to NaN). -/
def parseNumeric (s : String) : Option Rat :=
  let cs := trimChars s.data
  let signAndRest : Rat × List Char :=
    match cs with
    | '-' :: rest => (-1, rest)
    | '+' :: rest => (1, rest)
    | rest => (1, rest)
  let sign := signAndRest.1
  match splitCharsOn '.' signAndRest.2 [] with
  | [ip] => (parseNatDigits ip).map (fun n => sign * (n : Rat))
  | [ip, fp] =>
    if ip.isEmpty ∧ fp.isEmpty then none
    else
      let ipv : Option Nat := if ip.isEmpty then some 0 else parseNatDigits ip
      let fpv : Option Nat := if fp.isEmpty then some 0 else parseNatDigits fp
      match ipv, fpv with
      | some i, some f =>
        some (sign * ((i : Rat) + (f : Rat) / ((10 : Rat) ^ fp.length)))
      | _, _ => none
  | _ => none

/-- `pd.to_numeric(x, errors="coerce")` followed by `.fillna(0)` on one field:
a missing field (NaN) or unparseable text becomes `0`. -/
def cleanAmount (o : Option String) : Rat :=
  (o.bind parseNumeric).getD 0

/-! ### Calendar dates -/

/-- A calendar date (time-of-day is not modelled; the app never uses it). -/
structure Date where
  year : Nat
  month : Nat
  day : Nat
deriving DecidableEq, Repr

/-- Gregorian leap-year rule. -/
def isLeap (y : Nat) : Bool :=
  decide (y % 4 = 0 ∧ (y % 100 ≠ 0 ∨ y % 400 = 0))

/-- Number of days in a month. -/
def daysInMonth (y m : Nat) : Nat :=
  if m = 2 then (if isLeap y then 29 else 28)
  else if m = 4 ∨ m = 6 ∨ m = 9 ∨ m = 11 then 30
  else 31

/-- Calendar validity of a year/month/day triple. -/
def validDate (y m d : Nat) : Bool :=
  decide (1 ≤ m ∧ m ≤ 12 ∧ 1 ≤ d ∧ d ≤ daysInMonth y m)

/-- Three-letter English month abbreviation (case-insensitive), as accepted
by the date parser underlying `pd.to_datetime`. -/
def monthOfAbbrev (cs : List Char) : Option Nat :=
  match cs.map Char.toLower with
  | ['j', 'a', 'n'] => some 1
  | ['f', 'e', 'b'] => some 2
  | ['m', 'a', 'r'] => some 3
  | ['a', 'p', 'r'] => some 4
  | ['m', 'a', 'y'] => some 5
  | ['j', 'u', 'n'] => some 6
  | ['j', 'u', 'l'] => some 7
  | ['a', 'u', 'g'] => some 8
  | ['s', 'e', 'p'] => some 9
  | ['o', 'c', 't'] => some 10
  | ['n', 'o', 'v'] => some 11
  | ['d', 'e', 'c'] => some 12
  | _ => none

/-- `pd.to_datetime` on one string field, restricted to the formats the spec
documents (ISO numeric `YYYY-MM-DD` and abbreviated-month `DD Mon YYYY`),
tolerating surrounding whitespace.  `none` models a parse failure. -/
def parseDate (s : String) : Option Date :=
  let cs := trimChars s.data
  match splitCharsOn '-' cs [] with
  | [y, m, d] =>
    match parseNatDigits y, parseNatDigits m, parseNatDigits d with
    | some yv, some mv, some dv =>
      if validDate yv mv dv then some ⟨yv, mv, dv⟩ else none
    | _, _, _ => none
  | _ =>
    match (splitCharsOn ' ' cs []).filter (fun t => !t.isEmpty) with
    | [d, mon, y] =>
      match parseNatDigits d, monthOfAbbrev mon, parseNatDigits y with
      | some dv, some mv, some yv =>
        if validDate yv mv dv then some ⟨yv, mv, dv⟩ else none
      | _, _, _ => none
    | _ => none

/-- Chronological (lexicographic year/month/day) order on dates, as pandas
compares timestamps. -/
def dateLe (a b : Date) : Bool :=
  decide (a.year < b.year ∨
    (a.year = b.year ∧ (a.month < b.month ∨
      (a.month = b.month ∧ a.day ≤ b.day))))

/-- Order on optional dates used by `sort_values("Date")`: NaT (`none`)
sorts last (`na_position="last"`). -/
def optDateLe (a b : Option Date) : Bool :=
  match a, b with
  | none, none => true
  | none, some _ => false
  | some _, none => true
  | some d1, some d2 => dateLe d1 d2

example : parseDate "2024-01-31" = some ⟨2024, 1, 31⟩ := by decide
example : parseDate " 01 Jan 2024" = some ⟨2024, 1, 1⟩ := by decide
example : parseDate "notadate" = none := by decide
example : parseDate "2024-02-30" = none := by decide
example : parseNumeric " 45.00" = some 45 := by with_unfolding_all rfl
example : parseNumeric "abc" = none := by with_unfolding_all rfl
example : parseNumeric "-5" = some (-5) := by with_unfolding_all rfl
example : parseNumeric "12.50" = some (25 / 2) := by with_unfolding_all rfl
example : cleanAmount none = 0 := by with_unfolding_all rfl
example : splitStrOn ',' "a,b" = ["a", "b"] := by decide

/-! ### The read stage: `pd.read_csv(uploaded_file, header=None, names=...)` -/

/-- One raw line after CSV field splitting and positional assignment to the
six named columns `Account, Date, Description, Expense, Income, Category`
(`col_names` in `load_and_clean_data`).  `none` is a missing value (NaN). -/
structure RawRow where
  account : Option String
  date : Option String
  description : Option String
  expense : Option String
  income : Option String
  category : Option String
deriving DecidableEq, Repr

/-- An empty CSV field is a missing value (NaN) to pandas. -/
def naField (s : String) : Option String :=
  if s = "" then none else some s

/-- Positional assignment of a line's fields to the six named columns:
short lines have their missing trailing fields as NaN; in a line with more
fields than names the leftmost surplus fields are consumed as the index
(pandas names/index-inference), so the named columns get the last six. -/
def rowOfFields (fs : List String) : RawRow :=
  let gs := if 6 < fs.length then fs.drop (fs.length - 6) else fs
  { account := (gs.get? 0).bind naField
    date := (gs.get? 1).bind naField
    description := (gs.get? 2).bind naField
    expense := (gs.get? 3).bind naField
    income := (gs.get? 4).bind naField
    category := (gs.get? 5).bind naField }

/-- `pd.read_csv(content, header=None, names=col_names)`: split into lines,
skip blank lines (`skip_blank_lines=True`), split each line on the comma
delimiter, assign fields to the six named columns. -/
def readCsv (content : String) : List RawRow :=
  ((splitStrOn '\n' content).filter (fun l => l != "")).map
    (fun l => rowOfFields (splitStrOn ',' l))

/-- The whitespace-stripping pass of `load_and_clean_data` over the string
columns `["Account", "Description", "Category"]` (`df[col].str.strip()`; a
missing value passes through; the `dtype == "object"` guard holds whenever
the column carries text, which is the case modelled here). -/
def stripStringCols (r : RawRow) : RawRow :=
  { r with
    account := r.account.map stripStr
    description := r.description.map stripStr
    category := r.category.map stripStr }

/-- A row after `df["Date"] = pd.to_datetime(df["Date"])`. -/
structure DatedRow where
  account : Option String
  date : Option Date
  description : Option String
  expense : Option String
  income : Option String
  category : Option String
deriving DecidableEq, Repr

/-- `pd.to_datetime` on one row's date cell (default `errors="raise"`): a
missing date (NaN) becomes NaT; an unparseable date string raises, which the
embedding reports as `Except.error`. -/
def convertDate (r : RawRow) : Except String DatedRow :=
  match r.date with
  | none => Except.ok ⟨r.account, none, r.description, r.expense, r.income, r.category⟩
  | some s =>
    match parseDate s with
    | some d => Except.ok ⟨r.account, some d, r.description, r.expense, r.income, r.category⟩
    | none => Except.error ("could not parse date: " ++ s)

/-- Effectful map over a list in the `Except` monad, stopping at the first
error (the behaviour of the column-wise `pd.to_datetime` call, which raises
on the first unparseable entry). -/
def mapExcept (f : α → Except ε β) : List α → Except ε (List β)
  | [] => Except.ok []
  | a :: as =>
    match f a with
    | Except.error e => Except.error e
    | Except.ok b =>
      match mapExcept f as with
      | Except.error e => Except.error e
      | Except.ok bs => Except.ok (b :: bs)

/-- A fully typed transaction record, one row of the cleaned dataframe. -/
structure Record where
  account : Option String
  date : Option Date
  description : Option String
  expense : Rat
  income : Rat
  category : Option String
deriving DecidableEq, Repr

/-- The numeric-typing pass of `load_and_clean_data`:
`df["Expense"] = pd.to_numeric(df["Expense"], errors="coerce").fillna(0)`
and likewise for `Income`. -/
def typeRow (r : DatedRow) : Record :=
  { account := r.account
    date := r.date
    description := r.description
    expense := cleanAmount r.expense
    income := cleanAmount r.income
    category := r.category }

/-- `df = df.sort_values("Date")`: sort ascending by date, NaT last. -/
def sortByDate (rs : List Record) : List Record :=
  rs.mergeSort (fun a b => optDateLe a.date b.date)

/-- `load_and_clean_data` (src/app.py lines 8-32): read the CSV, strip the
string columns, convert dates (raising on an unparseable date, surfaced to
the caller's `except` block as an error), coerce the amount columns with 0
default, sort chronologically. -/
def load_and_clean_data (content : String) : Except String (List Record) :=
  match mapExcept convertDate ((readCsv content).map stripStringCols) with
  | Except.error e => Except.error e
  | Except.ok dated => Except.ok (sortByDate (dated.map typeRow))

example :
    load_and_clean_data "Acme Bank, 02 Jan 2024, salary, 2000.00, 0, Income" =
      Except.ok [⟨some "Acme Bank", some ⟨2024, 1, 2⟩, some "salary", 2000, 0, some "Income"⟩] := by
  with_unfolding_all rfl

/-! ### Filter engine (src/app.py lines 81-87) -/

/-- The sidebar filter state: a date range plus the category and account
multiselect selections. -/
structure FilterSpec where
  startDate : Date
  endDate : Date
  categories : List String
  accounts : List String

/-- `(raw_df["Date"].dt.date >= start_date) & (raw_df["Date"].dt.date <= end_date)`:
NaT fails both comparisons. -/
def dateInRange (spec : FilterSpec) (r : Record) : Bool :=
  match r.date with
  | some d => dateLe spec.startDate d && dateLe d spec.endDate
  | none => false

/-- `raw_df["Category"].isin(selected_categories)`: a missing category is
never a member of a list of selected category names. -/
def categorySelected (spec : FilterSpec) (r : Record) : Bool :=
  match r.category with
  | some c => spec.categories.contains c
  | none => false

/-- `raw_df["Account"].isin(selected_accounts)`. -/
def accountSelected (spec : FilterSpec) (r : Record) : Bool :=
  match r.account with
  | some a => spec.accounts.contains a
  | none => false

/-- The boolean `mask` (lines 81-86): conjunction of the date-range test and
the two set-membership tests. -/
def mask (spec : FilterSpec) (r : Record) : Bool :=
  dateInRange spec r && categorySelected spec r && accountSelected spec r

/-- `filtered_df = raw_df[mask]` (line 87): row selection by the boolean
mask; the rows themselves are untouched. -/
def filtered_df (spec : FilterSpec) (df : List Record) : List Record :=
  df.filter (mask spec)

/-! ### Aggregator (src/app.py lines 93-95) -/

/-- `total_expense = filtered_df["Expense"].sum()`. -/
def total_expense (df : List Record) : Rat :=
  (df.map Record.expense).sum

/-- `total_income = filtered_df["Income"].sum()`. -/
def total_income (df : List Record) : Rat :=
  (df.map Record.income).sum

/-- `net_flow = total_income - total_expense`. -/
def net_flow (df : List Record) : Rat :=
  total_income df - total_expense df

/-! ### Presenter: the "Detailed Transactions" table (src/app.py lines 148-155)

`display_df = filtered_df.copy()` followed by column-wise formatting:
dates via `strftime("%d %b %Y")`, amounts as `$x,xxx.xx` when positive and
the placeholder `-` otherwise.  The formatting produces a new table and does
not write back into `filtered_df` or `raw_df`. -/

/-- Zero-pad a number below 100 to two digits (as `%d` and the cent part of
`:,.2f` do). -/
def pad2 (n : Nat) : String :=
  if n < 10 then "0" ++ Nat.repr n else Nat.repr n

/-- Three-letter month name used by `strftime("%b")` (months 1-12). -/
def monthAbbrev (m : Nat) : String :=
  (["Jan", "Feb", "Mar", "Apr", "May", "Jun", "Jul", "Aug", "Sep", "Oct",
    "Nov", "Dec"]).getD (m - 1) ""

/-- `strftime("%d %b %Y")`. -/
def formatDate (d : Date) : String :=
  pad2 d.day ++ " " ++ monthAbbrev d.month ++ " " ++ Nat.repr d.year

/-- Insert a thousands separator after every three characters of a reversed
digit list (the `,` in the `:,.2f` format spec). -/
def commaGroupRev : Nat → List Char → List Char
  | _, [] => []
  | 0, ds => ds
  | fuel + 1, ds =>
    if ds.length ≤ 3 then ds
    else ds.take 3 ++ ',' :: commaGroupRev fuel (ds.drop 3)

/-- Decimal rendering of a natural number with thousands separators. -/
def groupDigits (n : Nat) : String :=
  let ds := (Nat.toDigits 10 n).reverse
  String.mk (commaGroupRev ds.length ds).reverse

/-- `f"${x:,.2f}"`: currency-prefixed, thousands-separated, two decimal
places.  (Tie behaviour of the half-cent rounding is not load-bearing for
any verified claim; the Python original formats a binary float there.) -/
def formatMoney (x : Rat) : String :=
  let cents : Int := ⌊x * 100 + 1 / 2⌋
  let sign : String := if cents < 0 then "-" else ""
  let n := cents.natAbs
  "$" ++ sign ++ groupDigits (n / 100) ++ "." ++ pad2 (n % 100)

/-- One row of `display_df` after formatting: dates and amounts rendered as
strings (a NaT date renders as a missing value). -/
structure DisplayRow where
  account : Option String
  date : Option String
  description : Option String
  expense : String
  income : String
  category : Option String
deriving DecidableEq, Repr

/-- The row-wise formatting applied to `display_df` (lines 151-153): date as
`%d %b %Y`, amounts as `$x,xxx.xx` when positive, else `-`. -/
def displayRow (r : Record) : DisplayRow :=
  { account := r.account
    date := r.date.map formatDate
    description := r.description
    expense := if 0 < r.expense then formatMoney r.expense else "-"
    income := if 0 < r.income then formatMoney r.income else "-"
    category := r.category }

/-- `display_df` as a function of the filtered rows: a fresh copy of the
rows (`filtered_df.copy()`), formatted row-wise, in the same order (no
re-sorting happens between line 150 and `st.dataframe` at line 155). -/
def displayRows (df : List Record) : List DisplayRow :=
  df.map displayRow

/-! ### One render cycle (the body of the `if uploaded_file` block)

A filter change re-runs the script: the mask and `filtered_df` are rebuilt
from `raw_df`, the KPI totals are computed from `filtered_df`, and the
transaction listing is built from a copy.  `raw_df` itself is never written
to after `load_and_clean_data` returns. -/

/-- What one render cycle shows for one filter state. -/
structure ViewOutput where
  totalExpense : Rat
  totalIncome : Rat
  netFlow : Rat
  transactions : List DisplayRow
deriving DecidableEq, Repr

/-- One render cycle over the parsed table for one filter state. -/
def render (raw : List Record) (spec : FilterSpec) : ViewOutput :=
  let fdf := filtered_df spec raw
  { totalExpense := total_expense fdf
    totalIncome := total_income fdf
    netFlow := net_flow fdf
    transactions := displayRows fdf }

/-- A sequence of filter changes: each cycle renders from the current parsed
table and hands the table on to the next cycle.  Returns the table as it
stands after all cycles together with every cycle's output. -/
def renderAll (raw : List Record) : List FilterSpec → List Record × List ViewOutput
  | [] => (raw, [])
  | spec :: specs =>
    let out := render raw spec
    let rest := renderAll raw specs
    (rest.1, out :: rest.2)

/-! ### Helper lemmas -/

theorem dateLe_trans (a b c : Date) (h1 : dateLe a b = true) (h2 : dateLe b c = true) :
    dateLe a c = true := by
  simp only [dateLe, decide_eq_true_eq] at *
  omega

theorem dateLe_total (a b : Date) : (dateLe a b || dateLe b a) = true := by
  simp only [dateLe, Bool.or_eq_true, decide_eq_true_eq]
  omega

theorem optDateLe_trans (a b c : Option Date)
    (h1 : optDateLe a b = true) (h2 : optDateLe b c = true) : optDateLe a c = true := by
  cases a <;> cases b <;> cases c <;> simp only [optDateLe] at * <;>
    first
    | rfl
    | cases h2
    | cases h1
    | exact dateLe_trans _ _ _ h1 h2

theorem optDateLe_total (a b : Option Date) : (optDateLe a b || optDateLe b a) = true := by
  cases a <;> cases b
  · rfl
  · rfl
  · rfl
  · exact dateLe_total _ _

theorem length_filter_mono {α : Type} (p q : α → Bool)
    (h : ∀ a, p a = true → q a = true) (l : List α) :
    (l.filter p).length ≤ (l.filter q).length := by
  induction l with
  | nil => simp
  | cons a t ih =>
    simp only [List.filter_cons]
    cases hp : p a with
    | true =>
      rw [h a hp]
      simpa using ih
    | false =>
      cases hq : q a <;> simp <;> omega

theorem mapExcept_ok_length {α β ε : Type} (f : α → Except ε β) (l : List α)
    (l2 : List β) (h : mapExcept f l = Except.ok l2) : l2.length = l.length := by
  induction l generalizing l2 with
  | nil =>
    simp only [mapExcept] at h
    cases h
    rfl
  | cons a t ih =>
    simp only [mapExcept] at h
    cases hf : f a with
    | error e => rw [hf] at h; cases h
    | ok b =>
      rw [hf] at h
      cases ht : mapExcept f t with
      | error e => rw [ht] at h; cases h
      | ok bs =>
        rw [ht] at h
        cases h
        simp [ih bs ht]

theorem mapExcept_ok_mem {α β ε : Type} (f : α → Except ε β) (l : List α)
    (l2 : List β) (h : mapExcept f l = Except.ok l2) (b : β) (hb : b ∈ l2) :
    ∃ a ∈ l, f a = Except.ok b := by
  induction l generalizing l2 with
  | nil =>
    simp only [mapExcept] at h
    cases h
    cases hb
  | cons a t ih =>
    simp only [mapExcept] at h
    cases hf : f a with
    | error e => rw [hf] at h; cases h
    | ok b0 =>
      rw [hf] at h
      cases ht : mapExcept f t with
      | error e => rw [ht] at h; cases h
      | ok bs =>
        rw [ht] at h
        cases h
        rcases hb with _ | hb2
        · exact ⟨a, List.mem_cons_self a t, hf⟩
        · obtain ⟨a2, ha2, hfa2⟩ := ih bs ht (by assumption)
          exact ⟨a2, List.mem_cons_of_mem a ha2, hfa2⟩

theorem mapExcept_error_of_mem {α β ε : Type} (f : α → Except ε β) (l : List α)
    (a : α) (ha : a ∈ l) (e : ε) (hf : f a = Except.error e) :
    ∃ e2, mapExcept f l = Except.error e2 := by
  induction l with
  | nil => cases ha
  | cons x t ih =>
    simp only [mapExcept]
    cases hx : f x with
    | error e0 => exact ⟨e0, rfl⟩
    | ok b =>
      rcases ha with _ | ha2
      · rw [hx] at hf; cases hf
      · obtain ⟨e2, he2⟩ := ih (by assumption)
        rw [he2]
        exact ⟨e2, rfl⟩

theorem load_ok_cases (content : String) (rs : List Record)
    (h : load_and_clean_data content = Except.ok rs) :
    ∃ dated, mapExcept convertDate ((readCsv content).map stripStringCols) = Except.ok dated ∧
      rs = sortByDate (dated.map typeRow) := by
  unfold load_and_clean_data at h
  cases hm : mapExcept convertDate ((readCsv content).map stripStringCols) with
  | error e => rw [hm] at h; cases h
  | ok dated => rw [hm] at h; cases h; exact ⟨dated, rfl, rfl⟩

theorem load_ok_count (content : String) (rs : List Record)
    (h : load_and_clean_data content = Except.ok rs) :
    rs.length = (readCsv content).length := by
  obtain ⟨dated, hm, hrs⟩ := load_ok_cases content rs h
  have hlen := mapExcept_ok_length convertDate _ dated hm
  subst hrs
  simp only [sortByDate, List.length_mergeSort, List.length_map]
  simpa using hlen

theorem convertDate_ok_fields (r : RawRow) (dr : DatedRow)
    (h : convertDate r = Except.ok dr) :
    dr.account = r.account ∧ dr.description = r.description ∧
      dr.expense = r.expense ∧ dr.income = r.income ∧ dr.category = r.category := by
  rcases r with ⟨a, d, de, ex, inc, ca⟩
  cases d with
  | none =>
    simp only [convertDate] at h
    cases h
    exact ⟨rfl, rfl, rfl, rfl, rfl⟩
  | some s =>
    simp only [convertDate] at h
    cases hp : parseDate s with
    | none => rw [hp] at h; cases h
    | some dd => rw [hp] at h; cases h; exact ⟨rfl, rfl, rfl, rfl, rfl⟩

theorem load_ok_mem_amounts (content : String) (rs : List Record)
    (h : load_and_clean_data content = Except.ok rs) (r : Record) (hr : r ∈ rs) :
    ∃ row ∈ readCsv content,
      r.expense = cleanAmount row.expense ∧ r.income = cleanAmount row.income := by
  obtain ⟨dated, hm, hrs⟩ := load_ok_cases content rs h
  subst hrs
  rw [sortByDate, List.mem_mergeSort] at hr
  obtain ⟨dr, hdr, hrdr⟩ := List.mem_map.mp hr
  obtain ⟨srow, hsrow, hconv⟩ := mapExcept_ok_mem convertDate _ dated hm dr hdr
  obtain ⟨row, hrow, hstrip⟩ := List.mem_map.mp hsrow
  obtain ⟨_, _, hexp, hinc, _⟩ := convertDate_ok_fields srow dr hconv
  refine ⟨row, hrow, ?_, ?_⟩
  · rw [← hrdr]
    show cleanAmount dr.expense = cleanAmount row.expense
    rw [hexp, ← hstrip]
    rfl
  · rw [← hrdr]
    show cleanAmount dr.income = cleanAmount row.income
    rw [hinc, ← hstrip]
    rfl

theorem load_error_of_badDate (content : String) (row : RawRow) (s : String)
    (hrow : row ∈ readCsv content) (hdate : row.date = some s)
    (hbad : parseDate s = none) :
    ∃ e, load_and_clean_data content = Except.error e := by
  have hconv : convertDate (stripStringCols row) = Except.error ("could not parse date: " ++ s) := by
    show convertDate ⟨_, row.date, _, _, _, _⟩ = _
    rw [convertDate]
    simp only [hdate, hbad]
  obtain ⟨e2, he2⟩ := mapExcept_error_of_mem convertDate ((readCsv content).map stripStringCols)
    (stripStringCols row) (List.mem_map_of_mem stripStringCols hrow)
    ("could not parse date: " ++ s) hconv
  refine ⟨e2, ?_⟩
  unfold load_and_clean_data
  rw [he2]

theorem load_ok_sorted (content : String) (rs : List Record)
    (h : load_and_clean_data content = Except.ok rs) :
    rs.Pairwise (fun a b => optDateLe a.date b.date = true) := by
  obtain ⟨dated, hm, hrs⟩ := load_ok_cases content rs h
  subst hrs
  show (List.mergeSort (dated.map typeRow) (fun a b => optDateLe a.date b.date)).Pairwise _
  exact List.sorted_mergeSort
    (fun a b c h1 h2 => optDateLe_trans a.date b.date c.date h1 h2)
    (fun a b => optDateLe_total a.date b.date)
    (dated.map typeRow)

theorem contains_subset (l1 l2 : List String) (h : l1 ⊆ l2) (c : String)
    (hc : l1.contains c = true) : l2.contains c = true :=
  List.elem_iff.mpr (h (List.elem_iff.mp hc))

/-! ### Claim C1: embedded delimiters in the description -/

/-- The spec's example line whose description `"grocery, shop"` contains an
embedded comma, giving the line seven fields. -/
def exFileC1 : String := "Acme Bank, 01 Jan 2024, grocery, shop, 0, 45.00, Groceries"

/-- C1 counterexample: on the spec's own example line, no parse result ever
carries the reassembled description `"grocery, shop"` — the claim that a
description with an embedded delimiter survives parsing intact is false. -/
theorem C1_counterexample :
    ¬ ∃ rs, load_and_clean_data exFileC1 = Except.ok rs ∧
      some "grocery, shop" ∈ rs.map Record.description := by
  intro h
  obtain ⟨rs, h1, -⟩ := h
  have h0 : load_and_clean_data exFileC1 =
      Except.error ("could not parse date: " ++ " grocery") := by
    with_unfolding_all rfl
  rw [h0] at h1
  exact Except.noConfusion h1

/-- C1 amended: a line with an embedded comma in its description is not
reassembled.  The surplus field makes pandas consume the leftmost field as
the index, shifting every named column one place left: the description
column receives only `" shop"`, the date column receives the description
text `" grocery"`, and the whole parse then fails with a file-level error
from `pd.to_datetime`. -/
theorem C1_amended :
    (readCsv exFileC1).map RawRow.date = [some " grocery"] ∧
      (readCsv exFileC1).map RawRow.description = [some " shop"] ∧
      load_and_clean_data exFileC1 =
        Except.error ("could not parse date: " ++ " grocery") :=
  ⟨by decide, by decide, by with_unfolding_all rfl⟩

/-! ### Claim C2: non-numeric amount fields -/

/-- A single line whose expense field holds the non-numeric text `"abc"`. -/
def exFileC2 : String := "Acme Bank,2024-01-01,lunch,abc,0,Food"

/-- C2 counterexample: a line whose amount field holds non-numeric text
(`"abc"`) is NOT dropped — it stays in the parser's output and its amount IS
defaulted to 0 (`to_numeric(errors="coerce").fillna(0)`), contradicting the
claim that such a line is excluded. -/
theorem C2_counterexample :
    load_and_clean_data exFileC2 =
      Except.ok [{ account := some "Acme Bank", date := some ⟨2024, 1, 1⟩,
                   description := some "lunch", expense := 0, income := 0,
                   category := some "Food" }] := by
  with_unfolding_all rfl

/-- C2 amended: no line is ever dropped for its amount content — the output
has exactly one record per (non-blank) input line, and every record's
expense and income are the coerce-then-fill-0 reading of the corresponding
raw fields (so non-numeric text and empty fields alike become 0). -/
theorem C2_amended (content : String) (rs : List Record)
    (h : load_and_clean_data content = Except.ok rs) :
    rs.length = (readCsv content).length ∧
      ∀ r ∈ rs, ∃ row ∈ readCsv content,
        r.expense = cleanAmount row.expense ∧ r.income = cleanAmount row.income :=
  ⟨load_ok_count content rs h, fun r hr => load_ok_mem_amounts content rs h r hr⟩

/-- The record the `"abc"` line parses to. -/
def recC2 : Record :=
  ⟨some "Acme Bank", some ⟨2024, 1, 1⟩, some "lunch", 0, 0, some "Food"⟩

/-- C2 witness: the amended statement instantiated at the `"abc"` file. -/
theorem C2_amended_witness :
    ([recC2] : List Record).length = (readCsv exFileC2).length ∧
      ∀ r ∈ ([recC2] : List Record), ∃ row ∈ readCsv exFileC2,
        r.expense = cleanAmount row.expense ∧ r.income = cleanAmount row.income :=
  C2_amended exFileC2 [recC2] (by with_unfolding_all rfl)

/-! ### Claim C3: unparseable dates -/

/-- A two-line file whose second line has the unparseable date `"notadate"`. -/
def exFileC3 : String :=
  "Acme Bank,2024-01-01,coffee,3.50,0,Food\nAcme Bank,notadate,torn receipt,2,0,Misc"

/-- The second raw row of `exFileC3`. -/
def rowC3 : RawRow :=
  ⟨some "Acme Bank", some "notadate", some "torn receipt", some "2", some "0", some "Misc"⟩

/-- C3 counterexample: a line whose date cannot be parsed is NOT silently
dropped — `pd.to_datetime` (default `errors="raise"`) raises, so the whole
parse fails with an error surfaced to the caller, and even the valid first
line yields no output. -/
theorem C3_counterexample :
    load_and_clean_data exFileC3 = Except.error ("could not parse date: " ++ "notadate") := by
  with_unfolding_all rfl

/-- C3 amended: a line whose date field cannot be parsed as a calendar date
makes the entire parse fail with a file-level error (the row-level failure
escalates); it is not dropped silently. -/
theorem C3_amended (content : String) (row : RawRow) (s : String)
    (hrow : row ∈ readCsv content) (hdate : row.date = some s)
    (hbad : parseDate s = none) :
    ∃ e, load_and_clean_data content = Except.error e :=
  load_error_of_badDate content row s hrow hdate hbad

/-- C3 witness: the amended statement instantiated at the `"notadate"` file. -/
theorem C3_amended_witness :
    ∃ e, load_and_clean_data exFileC3 = Except.error e :=
  C3_amended exFileC3 rowC3 "notadate" (by decide) rfl (by decide)

/-! ### Claim C4: lines with fewer than six fields -/

/-- A single line with only four comma-separated fields. -/
def exFileC4 : String := "Acme Bank,2024-01-01,lunch,12.50"

/-- The record the four-field line parses to: the missing trailing fields
(`Income`, `Category`) are NaN, and the NaN amount is filled with 0. -/
def recC4 : Record :=
  ⟨some "Acme Bank", some ⟨2024, 1, 1⟩, some "lunch", 25 / 2, 0, none⟩

/-- C4 counterexample: a line with fewer than six fields is NOT discarded —
the four-field line parses to a record and its 12.50 expense flows into the
expense total, contradicting the claim that such a line is dropped and
contributes nothing. -/
theorem C4_counterexample :
    load_and_clean_data exFileC4 = Except.ok [recC4] ∧ total_expense [recC4] = 25 / 2 :=
  ⟨by with_unfolding_all rfl, by with_unfolding_all rfl⟩

/-- C4 amended: a line with fewer than six fields is kept, its missing
trailing fields read as NaN (amounts default to 0, category missing), and
it contributes its parsed amounts to totals; in general a four-field line
always has NaN income and category. -/
theorem C4_amended :
    load_and_clean_data exFileC4 = Except.ok [recC4] ∧
      recC4.income = 0 ∧ recC4.category = none ∧
      ∀ f1 f2 f3 f4 : String,
        (rowOfFields [f1, f2, f3, f4]).income = none ∧
          (rowOfFields [f1, f2, f3, f4]).category = none :=
  ⟨by with_unfolding_all rfl, rfl, rfl, fun f1 f2 f3 f4 => ⟨rfl, rfl⟩⟩

/-! ### Claim C5: amount invariants -/

/-- A single line with a negative expense amount. -/
def exFileC5 : String := "Acme Bank,2024-01-01,refund,-5,0,Misc"

/-- The record the negative-amount line parses to. -/
def recC5 : Record :=
  ⟨some "Acme Bank", some ⟨2024, 1, 1⟩, some "refund", -5, 0, some "Misc"⟩

/-- C5 counterexample: `pd.to_numeric` passes a parsed negative amount
through unchanged, so an output record can have a negative expense —
non-negativity of the output is false. -/
theorem C5_counterexample :
    load_and_clean_data exFileC5 = Except.ok [recC5] ∧ recC5.expense < 0 :=
  ⟨by with_unfolding_all rfl, by show (-5 : Rat) < 0; norm_num⟩

/-- A well-behaved single-line file used to instantiate the amended C5. -/
def exFileC5b : String := "Acme Bank,2024-01-01,coffee,3,0,Food"

/-- The record `exFileC5b` parses to. -/
def recC5b : Record :=
  ⟨some "Acme Bank", some ⟨2024, 1, 1⟩, some "coffee", 3, 0, some "Food"⟩

/-- C5 amended: the expense and income fields are always present (missing or
unparseable raw values are coerced to 0), and the output has at most one
record per input line; but the fields are non-negative only when the raw
amount fields themselves clean to non-negative values — a negative input
amount stays negative. -/
theorem C5_amended (content : String) (rs : List Record)
    (h : load_and_clean_data content = Except.ok rs)
    (hnn : ∀ row ∈ readCsv content,
      0 ≤ cleanAmount row.expense ∧ 0 ≤ cleanAmount row.income) :
    rs.length ≤ (splitStrOn '\n' content).length ∧
      ∀ r ∈ rs, 0 ≤ r.expense ∧ 0 ≤ r.income := by
  constructor
  · rw [load_ok_count content rs h]
    simp only [readCsv, List.length_map]
    exact List.length_filter_le _ _
  · intro r hr
    obtain ⟨row, hrow, he, hi⟩ := load_ok_mem_amounts content rs h r hr
    obtain ⟨h1, h2⟩ := hnn row hrow
    exact ⟨he ▸ h1, hi ▸ h2⟩

/-- C5 witness: the amended statement instantiated at a concrete file with
non-negative amounts. -/
theorem C5_amended_witness :
    ([recC5b] : List Record).length ≤ (splitStrOn '\n' exFileC5b).length ∧
      ∀ r ∈ ([recC5b] : List Record), 0 ≤ r.expense ∧ 0 ≤ r.income :=
  C5_amended exFileC5b [recC5b] (by with_unfolding_all rfl)
    (by
      intro row hrow
      have hread : readCsv exFileC5b =
          [⟨some "Acme Bank", some "2024-01-01", some "coffee", some "3", some "0", some "Food"⟩] := by
        decide
      rw [hread] at hrow
      have h3 : cleanAmount (some "3") = 3 := by with_unfolding_all rfl
      have h0 : cleanAmount (some "0") = 0 := by with_unfolding_all rfl
      cases hrow with
      | head =>
        constructor
        · show (0 : Rat) ≤ cleanAmount (some "3")
          rw [h3]; norm_num
        · show (0 : Rat) ≤ cleanAmount (some "0")
          rw [h0]
      | tail _ hmem => cases hmem)

/-! ### Claim C6: the displayed totals -/

/-- C6: for every parsed table and every filter combination, the total
expense is the sum of `expense` over the filtered set, the total income is
the sum of `income` over it, and the net flow is income minus expense.
(In the code these are the very definitions of `total_expense`,
`total_income` and `net_flow` at lines 93-95, so the property holds
definitionally.) -/
theorem C6_totals (df : List Record) (spec : FilterSpec) :
    total_expense (filtered_df spec df) = ((filtered_df spec df).map Record.expense).sum ∧
      total_income (filtered_df spec df) = ((filtered_df spec df).map Record.income).sum ∧
      net_flow (filtered_df spec df) =
        total_income (filtered_df spec df) - total_expense (filtered_df spec df) :=
  ⟨rfl, rfl, rfl⟩

/-! ### Claim C7: narrowing a facet is monotone -/

/-- `s2` narrows the date range of `s1`, other facets equal. -/
def narrowsDate (s2 s1 : FilterSpec) : Prop :=
  dateLe s1.startDate s2.startDate = true ∧ dateLe s2.endDate s1.endDate = true ∧
    s2.categories = s1.categories ∧ s2.accounts = s1.accounts

/-- `s2` selects a subset of the categories of `s1`, other facets equal. -/
def narrowsCategories (s2 s1 : FilterSpec) : Prop :=
  s2.startDate = s1.startDate ∧ s2.endDate = s1.endDate ∧
    s2.categories ⊆ s1.categories ∧ s2.accounts = s1.accounts

/-- `s2` selects a subset of the accounts of `s1`, other facets equal. -/
def narrowsAccounts (s2 s1 : FilterSpec) : Prop :=
  s2.startDate = s1.startDate ∧ s2.endDate = s1.endDate ∧
    s2.categories = s1.categories ∧ s2.accounts ⊆ s1.accounts

/-- C7: narrowing any single facet of the filter specification — a smaller
date range, a subset of the selected categories, or a subset of the selected
accounts, other facets equal — never increases the filtered row count. -/
theorem C7_narrowing_monotone (df : List Record) (s1 s2 : FilterSpec)
    (h : narrowsDate s2 s1 ∨ narrowsCategories s2 s1 ∨ narrowsAccounts s2 s1) :
    (filtered_df s2 df).length ≤ (filtered_df s1 df).length := by
  apply length_filter_mono
  intro r hr
  simp only [mask, Bool.and_eq_true] at hr ⊢
  obtain ⟨⟨hdr, hcr⟩, har⟩ := hr
  rcases h with ⟨h1, h2, h3, h4⟩ | ⟨h1, h2, h3, h4⟩ | ⟨h1, h2, h3, h4⟩
  · refine ⟨⟨?_, ?_⟩, ?_⟩
    · unfold dateInRange at hdr ⊢
      cases hdate : r.date with
      | none => rw [hdate] at hdr; cases hdr
      | some d =>
        rw [hdate] at hdr
        rw [Bool.and_eq_true] at hdr ⊢
        exact ⟨dateLe_trans _ _ _ h1 hdr.1, dateLe_trans _ _ _ hdr.2 h2⟩
    · unfold categorySelected at hcr ⊢
      rw [← h3]
      exact hcr
    · unfold accountSelected at har ⊢
      rw [← h4]
      exact har
  · refine ⟨⟨?_, ?_⟩, ?_⟩
    · unfold dateInRange at hdr ⊢
      rw [← h1, ← h2]
      exact hdr
    · unfold categorySelected at hcr ⊢
      cases hcat : r.category with
      | none => rw [hcat] at hcr; cases hcr
      | some c =>
        rw [hcat] at hcr
        exact contains_subset _ _ h3 c hcr
    · unfold accountSelected at har ⊢
      rw [← h4]
      exact har
  · refine ⟨⟨?_, ?_⟩, ?_⟩
    · unfold dateInRange at hdr ⊢
      rw [← h1, ← h2]
      exact hdr
    · unfold categorySelected at hcr ⊢
      rw [← h3]
      exact hcr
    · unfold accountSelected at har ⊢
      cases hacc : r.account with
      | none => rw [hacc] at har; cases har
      | some a =>
        rw [hacc] at har
        exact contains_subset _ _ h4 a har

/-- A concrete record used to instantiate C7. -/
def recC7 : Record := ⟨some "Acme", some ⟨2024, 1, 5⟩, some "x", 1, 0, some "Food"⟩

/-- A wide filter specification for C7. -/
def specC7a : FilterSpec := ⟨⟨2024, 1, 1⟩, ⟨2024, 12, 31⟩, ["Food", "Rent"], ["Acme"]⟩

/-- The same specification with the category facet narrowed. -/
def specC7b : FilterSpec := ⟨⟨2024, 1, 1⟩, ⟨2024, 12, 31⟩, ["Food"], ["Acme"]⟩

/-- C7 witness: narrowing the category facet at a concrete table. -/
theorem C7_narrowing_monotone_witness :
    (filtered_df specC7b [recC7]).length ≤ (filtered_df specC7a [recC7]).length :=
  C7_narrowing_monotone [recC7] specC7a specC7b
    (Or.inr (Or.inl ⟨rfl, rfl, by simp [specC7a, specC7b, List.subset_def], rfl⟩))

/-! ### Claim C8: conjunction semantics and empty selections -/

/-- C8: the filter mask is the conjunction (AND) of the date-range predicate
and the two set-membership predicates, and an empty selection on the
category or on the account facet yields an empty filtered result set, not
the full set. -/
theorem C8_conjunction (df : List Record) (spec : FilterSpec) :
    (∀ r, r ∈ filtered_df spec df ↔
      r ∈ df ∧ dateInRange spec r = true ∧ categorySelected spec r = true ∧
        accountSelected spec r = true) ∧
      (spec.categories = [] → filtered_df spec df = []) ∧
      (spec.accounts = [] → filtered_df spec df = []) := by
  refine ⟨fun r => ?_, fun hc => ?_, fun ha => ?_⟩
  · constructor
    · intro hmem
      obtain ⟨hdf, hmask⟩ := List.mem_filter.mp hmem
      simp only [mask, Bool.and_eq_true] at hmask
      exact ⟨hdf, hmask.1.1, hmask.1.2, hmask.2⟩
    · intro h
      obtain ⟨hdf, h1, h2, h3⟩ := h
      refine List.mem_filter.mpr ⟨hdf, ?_⟩
      simp only [mask, Bool.and_eq_true]
      exact ⟨⟨h1, h2⟩, h3⟩
  · apply List.filter_eq_nil_iff.mpr
    intro r hr hmask
    simp only [mask, Bool.and_eq_true] at hmask
    have hcat := hmask.1.2
    unfold categorySelected at hcat
    rw [hc] at hcat
    revert hcat
    cases r.category <;> simp [List.contains]
  · apply List.filter_eq_nil_iff.mpr
    intro r hr hmask
    simp only [mask, Bool.and_eq_true] at hmask
    have hacc := hmask.2
    unfold accountSelected at hacc
    rw [ha] at hacc
    revert hacc
    cases r.account <;> simp [List.contains]

/-- A concrete record used to instantiate C8. -/
def recC8 : Record := ⟨some "Acme", some ⟨2024, 1, 5⟩, some "y", 2, 0, some "Food"⟩

/-- A filter specification with an empty category selection. -/
def specC8 : FilterSpec := ⟨⟨2024, 1, 1⟩, ⟨2024, 12, 31⟩, [], ["Acme"]⟩

/-- C8 witness: the conjunction/empty-selection statement instantiated at a
concrete table and an empty category selection. -/
theorem C8_conjunction_witness :
    filtered_df specC8 [recC8] = [] ∧
      (recC8 ∈ filtered_df specC8 [recC8] ↔
        recC8 ∈ [recC8] ∧ dateInRange specC8 recC8 = true ∧
          categorySelected specC8 recC8 = true ∧ accountSelected specC8 recC8 = true) :=
  ⟨(C8_conjunction [recC8] specC8).2.1 rfl, (C8_conjunction [recC8] specC8).1 recC8⟩

/-! ### Claim C9: ordering of the transaction listing -/

/-- A two-line file given in reverse chronological order. -/
def exFileC9 : String :=
  "Acme Bank,2024-01-02,salary,0,2000,Income\nAcme Bank,2024-01-01,groceries,45,0,Food"

/-- The older record of `exFileC9`. -/
def recC9a : Record :=
  ⟨some "Acme Bank", some ⟨2024, 1, 1⟩, some "groceries", 45, 0, some "Food"⟩

/-- The newer record of `exFileC9`. -/
def recC9b : Record :=
  ⟨some "Acme Bank", some ⟨2024, 1, 2⟩, some "salary", 0, 2000, some "Income"⟩

/-- C9 counterexample: the parsed table is sorted ascending and the
transaction listing is rendered in that same order, so the first listed row
carries the strictly OLDER date `01 Jan 2024` — the listing is oldest-first,
not most-recent-first as claimed. -/
theorem C9_counterexample :
    load_and_clean_data exFileC9 = Except.ok [recC9a, recC9b] ∧
      (displayRows [recC9a, recC9b]).map DisplayRow.date =
        [some "01 Jan 2024", some "02 Jan 2024"] ∧
      optDateLe recC9b.date recC9a.date = false :=
  ⟨by with_unfolding_all rfl, by with_unfolding_all rfl, by with_unfolding_all rfl⟩

/-- C9 amended: the underlying table is kept sorted by date ascending (line
30), and the detailed transaction listing is presented in that same
ascending order — `display_df` is a row-wise formatting of `filtered_df`
with no re-sorting, so the listing is oldest-first. -/
theorem C9_amended (content : String) (rs : List Record)
    (h : load_and_clean_data content = Except.ok rs) :
    rs.Pairwise (fun a b => optDateLe a.date b.date = true) ∧
      displayRows rs = rs.map displayRow :=
  ⟨load_ok_sorted content rs h, rfl⟩

/-- C9 witness: the amended statement instantiated at the two-line file. -/
theorem C9_amended_witness :
    ([recC9a, recC9b] : List Record).Pairwise (fun a b => optDateLe a.date b.date = true) ∧
      displayRows [recC9a, recC9b] = [recC9a, recC9b].map displayRow :=
  C9_amended exFileC9 [recC9a, recC9b] (by with_unfolding_all rfl)

/-! ### Claim C10: filtering and display formatting do not mutate the table -/

/-- C10: over any sequence of filter changes, the parsed table the render
cycles work from is left unchanged, every cycle's output is a pure function
of the original table and that cycle's filter specification, and each
cycle's aggregates and listing are computed from the original parsed rows
selected by the filter (`raw_df[mask]` selects rows without mutating them,
and `display_df = filtered_df.copy()` formats a copy). -/
theorem C10_frame (raw : List Record) (specs : List FilterSpec) :
    (renderAll raw specs).1 = raw ∧
      (renderAll raw specs).2 = specs.map (fun spec => render raw spec) ∧
      ∀ spec : FilterSpec,
        (render raw spec).totalExpense = total_expense (filtered_df spec raw) ∧
          (render raw spec).totalIncome = total_income (filtered_df spec raw) ∧
          (render raw spec).netFlow = net_flow (filtered_df spec raw) ∧
          (render raw spec).transactions = displayRows (filtered_df spec raw) := by
  refine ⟨?_, ?_, fun spec => ⟨rfl, rfl, rfl, rfl⟩⟩
  · induction specs with
    | nil => rfl
    | cons s t ih => simpa [renderAll] using ih
  · induction specs with
    | nil => rfl
    | cons s t ih =>
      simp only [renderAll, List.map]
      rw [ih]
